import Mathlib

/-!
Verification development for the metis payment-card service
(`overlays/uksouth-prod/olympus/metis/hacks/services.py`).

The first part embeds the retry dispatch loops
`_send_retry_spreedly_request` (blocking, `requests`) and
`_async_send_retry_spreedly_request` (non-blocking, `httpx`) as functions
from a script of per-attempt outcomes to an observable trace: the sleeps
performed, the final result, and the number of credential refreshes.
-/

namespace GitopsArchive

/-- Per-attempt outcome of one physical HTTP request: a transport-level
failure (timeout or connection error, the exceptions caught by the loop)
or a response carrying the given status code. -/
inductive Outcome where
  | transport
  | status (code : Nat)
deriving DecidableEq, Repr

/-- Final result of a dispatch loop.  `valueError` is the blocking loop's
`raise ValueError` when `resp is None` after the loop; `unboundLocal` is
the non-blocking loop's `return resp` with `resp` never having been
assigned (Python raises `UnboundLocalError`). -/
inductive DispatchResult where
  | response (code : Nat)
  | valueError
  | unboundLocal
deriving DecidableEq, Repr

/-- Observable trace of one dispatch-loop run: the sleep durations in
order, the final result (`none` when the outcome script ran out before
the loop finished, which no theorem below relies on), and how many times
`refresh_oauth_credentials` was called. -/
structure LoopOut where
  sleeps : List Nat
  result : Option DispatchResult
  refreshes : Nat
deriving DecidableEq, Repr

/-- Status codes retried by both loops:
`resp.status_code in (500, 501, 502, 503, 504, 492)`. -/
def retryableStatus (c : Nat) : Bool :=
  c == 500 || c == 501 || c == 502 || c == 503 || c == 504 || c == 492

/-- Post-loop behaviour of the blocking variant: `resp` starts as `None`
and is reset to `None` on each caught transport exception, and
`if resp is None: raise ValueError(...)` after the loop. -/
def finishSync (resp : Option Nat) : DispatchResult :=
  match resp with
  | some c => .response c
  | none => .valueError

/-- Post-loop behaviour of the non-blocking variant: plain `return resp`,
which raises `UnboundLocalError` when no attempt ever produced a
response. -/
def finishAsync (resp : Option Nat) : DispatchResult :=
  match resp with
  | some c => .response c
  | none => .unboundLocal

/-- One-to-one embedding of the `while attempts < 4` loop of
`_send_retry_spreedly_request`.  Arguments mirror the Python locals:
the remaining outcome script, `attempts`, `get_auth_attempts`, `resp`
(status code of the last response obtained, `None` initially and after a
caught transport exception), the sleeps so far (reversed), and the count
of `refresh_oauth_credentials` calls. -/
def syncGo (outs : List Outcome) (attempts authAtt : Nat) (resp : Option Nat)
    (sleeps : List Nat) (refr : Nat) : LoopOut :=
  match outs with
  | [] =>
    if attempts < 4 then ⟨sleeps.reverse, none, refr⟩
    else ⟨sleeps.reverse, some (finishSync resp), refr⟩
  | o :: rest =>
    if attempts < 4 then
      match o with
      | .transport =>
        -- `except (requests.Timeout, ConnectionError)`: retry = True, resp = None
        syncGo rest (attempts + 1) authAtt none ((3 ^ (attempts + 1) - 1) :: sleeps) refr
      | .status c =>
        if c = 401 then
          -- refresh_oauth_credentials(); get_auth_attempts += 1;
          -- sleep(2**k - 2) when k > 3; break when k > 10; attempts = 0; retry
          let k := authAtt + 1
          let s1 := if 3 < k then (2 ^ k - 2) :: sleeps else sleeps
          if 10 < k then ⟨s1.reverse, some (.response c), refr + 1⟩
          else syncGo rest 0 k (some c) ((3 ^ (0 : Nat) - 1) :: s1) (refr + 1)
        else if retryableStatus c then
          syncGo rest (attempts + 1) authAtt (some c) ((3 ^ (attempts + 1) - 1) :: sleeps) refr
        else
          -- any other status: retry = False, break, return resp as-is
          ⟨sleeps.reverse, some (.response c), refr⟩
    else ⟨sleeps.reverse, some (finishSync resp), refr⟩

/-- One-to-one embedding of the `while attempts < 4` loop of
`_async_send_retry_spreedly_request`.  Identical to `syncGo` except that
the caught transport exception does not touch `resp` (the Python `except`
block has no `resp = None`) and the post-loop behaviour is a bare
`return resp`. -/
def asyncGo (outs : List Outcome) (attempts authAtt : Nat) (resp : Option Nat)
    (sleeps : List Nat) (refr : Nat) : LoopOut :=
  match outs with
  | [] =>
    if attempts < 4 then ⟨sleeps.reverse, none, refr⟩
    else ⟨sleeps.reverse, some (finishAsync resp), refr⟩
  | o :: rest =>
    if attempts < 4 then
      match o with
      | .transport =>
        asyncGo rest (attempts + 1) authAtt resp ((3 ^ (attempts + 1) - 1) :: sleeps) refr
      | .status c =>
        if c = 401 then
          let k := authAtt + 1
          let s1 := if 3 < k then (2 ^ k - 2) :: sleeps else sleeps
          if 10 < k then ⟨s1.reverse, some (.response c), refr + 1⟩
          else asyncGo rest 0 k (some c) ((3 ^ (0 : Nat) - 1) :: s1) (refr + 1)
        else if retryableStatus c then
          asyncGo rest (attempts + 1) authAtt (some c) ((3 ^ (attempts + 1) - 1) :: sleeps) refr
        else
          ⟨sleeps.reverse, some (.response c), refr⟩
    else ⟨sleeps.reverse, some (finishAsync resp), refr⟩

/-- `_send_retry_spreedly_request`, run against an outcome script. -/
def send_retry_spreedly_request (outs : List Outcome) : LoopOut :=
  syncGo outs 0 0 none [] 0

/-- `_async_send_retry_spreedly_request`, run against an outcome script. -/
def async_send_retry_spreedly_request (outs : List Outcome) : LoopOut :=
  asyncGo outs 0 0 none [] 0

section StepLemmas

theorem syncGo_transport {a : Nat} (ha : a < 4) (rest : List Outcome)
    (k : Nat) (r : Option Nat) (s : List Nat) (f : Nat) :
    syncGo (Outcome.transport :: rest) a k r s f
      = syncGo rest (a + 1) k none ((3 ^ (a + 1) - 1) :: s) f := by
  simp [syncGo, ha]

theorem asyncGo_transport {a : Nat} (ha : a < 4) (rest : List Outcome)
    (k : Nat) (r : Option Nat) (s : List Nat) (f : Nat) :
    asyncGo (Outcome.transport :: rest) a k r s f
      = asyncGo rest (a + 1) k r ((3 ^ (a + 1) - 1) :: s) f := by
  simp [asyncGo, ha]

theorem retryable_cases {c : Nat} (hc : retryableStatus c = true) :
    c = 500 ∨ c = 501 ∨ c = 502 ∨ c = 503 ∨ c = 504 ∨ c = 492 := by
  simp only [retryableStatus, Bool.or_eq_true, beq_iff_eq] at hc
  tauto

theorem syncGo_retryable {c : Nat} (hc : retryableStatus c = true)
    {a : Nat} (ha : a < 4) (rest : List Outcome)
    (k : Nat) (r : Option Nat) (s : List Nat) (f : Nat) :
    syncGo (Outcome.status c :: rest) a k r s f
      = syncGo rest (a + 1) k (some c) ((3 ^ (a + 1) - 1) :: s) f := by
  rcases retryable_cases hc with rfl | rfl | rfl | rfl | rfl | rfl <;>
    simp [syncGo, retryableStatus, ha]

theorem asyncGo_retryable {c : Nat} (hc : retryableStatus c = true)
    {a : Nat} (ha : a < 4) (rest : List Outcome)
    (k : Nat) (r : Option Nat) (s : List Nat) (f : Nat) :
    asyncGo (Outcome.status c :: rest) a k r s f
      = asyncGo rest (a + 1) k (some c) ((3 ^ (a + 1) - 1) :: s) f := by
  rcases retryable_cases hc with rfl | rfl | rfl | rfl | rfl | rfl <;>
    simp [asyncGo, retryableStatus, ha]

theorem syncGo_terminal {c : Nat} (h401 : c ≠ 401) (hc : retryableStatus c = false)
    {a : Nat} (ha : a < 4) (rest : List Outcome)
    (k : Nat) (r : Option Nat) (s : List Nat) (f : Nat) :
    syncGo (Outcome.status c :: rest) a k r s f = ⟨s.reverse, some (.response c), f⟩ := by
  simp [syncGo, ha, h401, hc]

theorem asyncGo_terminal {c : Nat} (h401 : c ≠ 401) (hc : retryableStatus c = false)
    {a : Nat} (ha : a < 4) (rest : List Outcome)
    (k : Nat) (r : Option Nat) (s : List Nat) (f : Nat) :
    asyncGo (Outcome.status c :: rest) a k r s f = ⟨s.reverse, some (.response c), f⟩ := by
  simp [asyncGo, ha, h401, hc]

theorem syncGo_auth {a : Nat} (ha : a < 4) (rest : List Outcome)
    (k : Nat) (r : Option Nat) (s : List Nat) (f : Nat) :
    syncGo (Outcome.status 401 :: rest) a k r s f
      = (if 10 < k + 1 then
          ⟨(if 3 < k + 1 then (2 ^ (k + 1) - 2) :: s else s).reverse,
            some (.response 401), f + 1⟩
        else
          syncGo rest 0 (k + 1) (some 401)
            ((3 ^ (0 : Nat) - 1) :: (if 3 < k + 1 then (2 ^ (k + 1) - 2) :: s else s))
            (f + 1)) := by
  simp [syncGo, ha]

theorem asyncGo_auth {a : Nat} (ha : a < 4) (rest : List Outcome)
    (k : Nat) (r : Option Nat) (s : List Nat) (f : Nat) :
    asyncGo (Outcome.status 401 :: rest) a k r s f
      = (if 10 < k + 1 then
          ⟨(if 3 < k + 1 then (2 ^ (k + 1) - 2) :: s else s).reverse,
            some (.response 401), f + 1⟩
        else
          asyncGo rest 0 (k + 1) (some 401)
            ((3 ^ (0 : Nat) - 1) :: (if 3 < k + 1 then (2 ^ (k + 1) - 2) :: s else s))
            (f + 1)) := by
  simp [asyncGo, ha]

theorem syncGo_exhausted (outs : List Outcome)
    (k : Nat) (r : Option Nat) (s : List Nat) (f : Nat) :
    syncGo outs 4 k r s f = ⟨s.reverse, some (finishSync r), f⟩ := by
  cases outs <;> simp [syncGo]

theorem asyncGo_exhausted (outs : List Outcome)
    (k : Nat) (r : Option Nat) (s : List Nat) (f : Nat) :
    asyncGo outs 4 k r s f = ⟨s.reverse, some (finishAsync r), f⟩ := by
  cases outs <;> simp [asyncGo]

end StepLemmas

/-- Claim C1, counterexample: on a run of four retryable responses the
blocking dispatcher sleeps `3 ^ n - 1` seconds after EVERY attempt,
including a fourth sleep of `3 ^ 4 - 1 = 80` seconds after the final
attempt, just before returning; the claim's "no backoff occurs after the
4th (final) attempt" is therefore false on the code. -/
theorem C1_backoff_counterexample :
    (send_retry_spreedly_request
        [.status 500, .status 500, .status 500, .status 500]).sleeps = [2, 8, 26, 80]
    ∧ (send_retry_spreedly_request
        [.status 500, .status 500, .status 500, .status 500]).sleeps ≠ [2, 8, 26]
    ∧ (async_send_retry_spreedly_request
        [.status 500, .status 500, .status 500, .status 500]).sleeps = [2, 8, 26, 80] := by
  decide

/-- Claim C1, amended: for every four retryable status codes, both
dispatchers sleep `3 ^ n - 1` seconds after attempt `n` for every `n` in
`[1, 4]` — including `3 ^ 4 - 1 = 80` seconds after the fourth and final
attempt, before returning — and a retry triggered purely by
reauthentication (401) sleeps `3 ^ 0 - 1 = 0` seconds because the
attempt counter was reset to 0. -/
theorem C1_backoff_amended (c1 c2 c3 c4 : Nat)
    (h1 : retryableStatus c1 = true) (h2 : retryableStatus c2 = true)
    (h3 : retryableStatus c3 = true) (h4 : retryableStatus c4 = true) :
    (send_retry_spreedly_request
        [.status c1, .status c2, .status c3, .status c4]).sleeps
      = [3 ^ 1 - 1, 3 ^ 2 - 1, 3 ^ 3 - 1, 3 ^ 4 - 1]
    ∧ (async_send_retry_spreedly_request
        [.status c1, .status c2, .status c3, .status c4]).sleeps
      = [3 ^ 1 - 1, 3 ^ 2 - 1, 3 ^ 3 - 1, 3 ^ 4 - 1]
    ∧ (send_retry_spreedly_request
        [.status 401, .status c1, .status c2, .status c3, .status c4]).sleeps
      = [3 ^ 0 - 1, 3 ^ 1 - 1, 3 ^ 2 - 1, 3 ^ 3 - 1, 3 ^ 4 - 1] := by
  refine ⟨?_, ?_, ?_⟩
  · rw [send_retry_spreedly_request,
      syncGo_retryable h1 (by norm_num), syncGo_retryable h2 (by norm_num),
      syncGo_retryable h3 (by norm_num), syncGo_retryable h4 (by norm_num),
      syncGo_exhausted]
    norm_num
  · rw [async_send_retry_spreedly_request,
      asyncGo_retryable h1 (by norm_num), asyncGo_retryable h2 (by norm_num),
      asyncGo_retryable h3 (by norm_num), asyncGo_retryable h4 (by norm_num),
      asyncGo_exhausted]
    norm_num
  · rw [send_retry_spreedly_request, syncGo_auth (by norm_num)]
    norm_num
    rw [syncGo_retryable h1 (by norm_num), syncGo_retryable h2 (by norm_num),
      syncGo_retryable h3 (by norm_num), syncGo_retryable h4 (by norm_num),
      syncGo_exhausted]
    norm_num

/-- Witness for `C1_backoff_amended` at the concrete retryable codes
500, 502, 492, 504. -/
theorem C1_backoff_amended_witness :
    (send_retry_spreedly_request
        [.status 500, .status 502, .status 492, .status 504]).sleeps
      = [3 ^ 1 - 1, 3 ^ 2 - 1, 3 ^ 3 - 1, 3 ^ 4 - 1]
    ∧ (async_send_retry_spreedly_request
        [.status 500, .status 502, .status 492, .status 504]).sleeps
      = [3 ^ 1 - 1, 3 ^ 2 - 1, 3 ^ 3 - 1, 3 ^ 4 - 1]
    ∧ (send_retry_spreedly_request
        [.status 401, .status 500, .status 502, .status 492, .status 504]).sleeps
      = [3 ^ 0 - 1, 3 ^ 1 - 1, 3 ^ 2 - 1, 3 ^ 3 - 1, 3 ^ 4 - 1] :=
  C1_backoff_amended 500 502 492 504 (by decide) (by decide) (by decide) (by decide)

/-- Claim C3: whenever an attempt returns HTTP 401 (with the main attempt
counter inside its budget), both dispatchers refresh the credentials
(refresh count `f + 1`), increment the separate auth-retry counter to
`k + 1`, and, when `k + 1 ≤ 10`, reset the main attempt counter to 0 and
retry, sleeping an additional `2 ^ (k + 1) - 2` seconds first whenever
`k + 1 > 3` (plus the zero-second `3 ^ 0 - 1` main backoff); once the
auth-retry counter exceeds 10 the dispatch stops after the secondary
delay and returns the last-seen 401 response unmodified, not a
transport failure. -/
theorem C3_auth_retry_policy (rest : List Outcome) (a k : Nat) (r : Option Nat)
    (s : List Nat) (f : Nat) (ha : a < 4) :
    (k + 1 ≤ 10 →
        syncGo (Outcome.status 401 :: rest) a k r s f
          = syncGo rest 0 (k + 1) (some 401)
              ((3 ^ (0 : Nat) - 1) ::
                (if 3 < k + 1 then (2 ^ (k + 1) - 2) :: s else s)) (f + 1)
      ∧ asyncGo (Outcome.status 401 :: rest) a k r s f
          = asyncGo rest 0 (k + 1) (some 401)
              ((3 ^ (0 : Nat) - 1) ::
                (if 3 < k + 1 then (2 ^ (k + 1) - 2) :: s else s)) (f + 1))
    ∧ (10 < k + 1 →
        syncGo (Outcome.status 401 :: rest) a k r s f
          = ⟨((2 ^ (k + 1) - 2) :: s).reverse, some (.response 401), f + 1⟩
      ∧ asyncGo (Outcome.status 401 :: rest) a k r s f
          = ⟨((2 ^ (k + 1) - 2) :: s).reverse, some (.response 401), f + 1⟩) := by
  constructor
  · intro hk
    have h10 : ¬ 10 < k + 1 := by omega
    exact ⟨by rw [syncGo_auth ha]; simp [h10],
      by rw [asyncGo_auth ha]; simp [h10]⟩
  · intro hk
    have h3 : 3 < k + 1 := by omega
    exact ⟨by rw [syncGo_auth ha]; simp [hk, h3],
      by rw [asyncGo_auth ha]; simp [hk, h3]⟩

/-- Witness for `C3_auth_retry_policy`: the eleventh consecutive 401
stops the dispatch after a `2 ^ 11 - 2` second secondary delay and
returns the 401 response. -/
theorem C3_auth_retry_policy_witness :
    syncGo [Outcome.status 401] 0 10 none [] 0
      = ⟨[2 ^ 11 - 2], some (.response 401), 1⟩
    ∧ asyncGo [Outcome.status 401] 0 10 none [] 0
      = ⟨[2 ^ 11 - 2], some (.response 401), 1⟩ :=
  (C3_auth_retry_policy [] 0 10 none [] 0 (by norm_num)).2 (by norm_num)

/-- Claim C4 (divergence): the blocking and non-blocking dispatchers do
NOT produce the same final result on every identical outcome sequence.
On outcomes `500, transport, transport, transport` the backoffs agree
but the blocking variant raises `ValueError` (its transport failure,
because it resets `resp` to `None` on each transport exception) while
the non-blocking variant returns the stale 500 response obtained at
attempt 1; and when every attempt is a transport error the blocking
variant raises `ValueError` while the non-blocking variant hits an
unbound local `resp`. -/
theorem C4_sync_async_divergence :
    (send_retry_spreedly_request
        [.status 500, .transport, .transport, .transport]).sleeps
      = (async_send_retry_spreedly_request
        [.status 500, .transport, .transport, .transport]).sleeps
    ∧ (send_retry_spreedly_request
        [.status 500, .transport, .transport, .transport]).result
      = some DispatchResult.valueError
    ∧ (async_send_retry_spreedly_request
        [.status 500, .transport, .transport, .transport]).result
      = some (DispatchResult.response 500)
    ∧ (send_retry_spreedly_request
        [.status 500, .transport, .transport, .transport]).result
      ≠ (async_send_retry_spreedly_request
        [.status 500, .transport, .transport, .transport]).result
    ∧ (send_retry_spreedly_request [.transport, .transport, .transport, .transport]).result
      = some DispatchResult.valueError
    ∧ (async_send_retry_spreedly_request
        [.transport, .transport, .transport, .transport]).result
      = some DispatchResult.unboundLocal := by
  decide

/-- Claim C6: with the attempt counter inside its budget, a response
status in the retryable set is retried (consuming one attempt) by both
dispatchers, a transport timeout or connection error is likewise retried
and consumes one attempt, any other non-401 status ends the loop at once
with that response returned as-is, and once the 4-attempt budget is
exhausted the loop stops. -/
theorem C6_retry_classification (c : Nat) (rest : List Outcome) (a k : Nat)
    (r : Option Nat) (s : List Nat) (f : Nat) (ha : a < 4) :
    (retryableStatus c = true →
        syncGo (Outcome.status c :: rest) a k r s f
          = syncGo rest (a + 1) k (some c) ((3 ^ (a + 1) - 1) :: s) f
      ∧ asyncGo (Outcome.status c :: rest) a k r s f
          = asyncGo rest (a + 1) k (some c) ((3 ^ (a + 1) - 1) :: s) f)
    ∧ (syncGo (Outcome.transport :: rest) a k r s f
          = syncGo rest (a + 1) k none ((3 ^ (a + 1) - 1) :: s) f
      ∧ asyncGo (Outcome.transport :: rest) a k r s f
          = asyncGo rest (a + 1) k r ((3 ^ (a + 1) - 1) :: s) f)
    ∧ (c ≠ 401 → retryableStatus c = false →
        syncGo (Outcome.status c :: rest) a k r s f
          = ⟨s.reverse, some (.response c), f⟩
      ∧ asyncGo (Outcome.status c :: rest) a k r s f
          = ⟨s.reverse, some (.response c), f⟩)
    ∧ (∀ outs : List Outcome,
        syncGo outs 4 k r s f = ⟨s.reverse, some (finishSync r), f⟩
      ∧ asyncGo outs 4 k r s f = ⟨s.reverse, some (finishAsync r), f⟩) :=
  ⟨fun hc => ⟨syncGo_retryable hc ha rest k r s f, asyncGo_retryable hc ha rest k r s f⟩,
   ⟨syncGo_transport ha rest k r s f, asyncGo_transport ha rest k r s f⟩,
   fun h401 hc => ⟨syncGo_terminal h401 hc ha rest k r s f,
     asyncGo_terminal h401 hc ha rest k r s f⟩,
   fun outs => ⟨syncGo_exhausted outs k r s f, asyncGo_exhausted outs k r s f⟩⟩

/-- Witness for `C6_retry_classification`: 503 is retried consuming one
attempt; 404 is terminal and returned as-is with no further attempts. -/
theorem C6_retry_classification_witness :
    (syncGo [Outcome.status 503] 0 0 none [] 0
        = syncGo [] 1 0 (some 503) [3 ^ 1 - 1] 0)
    ∧ (syncGo [Outcome.status 404] 0 0 none [] 0
        = ⟨[], some (.response 404), 0⟩) :=
  ⟨(C6_retry_classification 503 [] 0 0 none [] 0 (by norm_num)).1 rfl |>.1,
   (C6_retry_classification 404 [] 0 0 none [] 0 (by norm_num)).2.2.1
     (by norm_num) rfl |>.1⟩

/-!
Embedding of the Visa (VOP) remove flow: `_remove_visa_card` and
`hermes_unenroll_call_back`.  The agent calls `deactivate_card` and
`un_enroll` are external; their results are inputs of the model.
-/

/-- Modelled from the spec: the three VOP deactivation classifications
SUCCESS, RETRY and FAILED of the `VOPResultStatus` enum in
`metis.agents.visa_offers`, which is not part of this repository. -/
inductive VOPResult where
  | success
  | retry
  | failed
deriving DecidableEq, Repr

/-- Modelled from the spec: the `.value` strings of `VOPResultStatus`;
every claim below depends only on the three values being pairwise
distinct. -/
def VOPResult.value : VOPResult → String
  | .success => "Success"
  | .retry => "Retry"
  | .failed => "Failed"

/-- Python truthiness of an optional string fetched with `dict.get`:
a missing key and the empty string are both falsy. -/
def truthyStr : Option String → Option String
  | some s => if s = "" then none else some s
  | none => none

/-- Result quintuple of `agent_instance.deactivate_card` (the trailing
ignored component is omitted). -/
structure DeactResult where
  response_status : String
  status_code : Option Nat
  agent_response_code : String
  agent_message : String
deriving DecidableEq, Repr

/-- Entry recorded in `deactivate_errors` for a non-successful
deactivation. -/
structure DeactError where
  response_status : String
  agent_response_code : String
  agent_response_message : String
deriving DecidableEq, Repr

/-- The error-map entry built at services.py lines 549-553. -/
def mkDeactError (r : DeactResult) : DeactError :=
  ⟨r.response_status, r.agent_response_code, r.agent_message⟩

/-- Test `response_status == VOPResultStatus.SUCCESS.value`. -/
def isSuccess (p : String × DeactResult) : Bool :=
  p.2.response_status == VOPResult.success.value

/-- Test `response_status == VOPResultStatus.RETRY.value`. -/
def isRetry (p : String × DeactResult) : Bool :=
  p.2.response_status == VOPResult.retry.value

/-- State built by the deactivation loop of `_remove_visa_card`. -/
structure DeactPhase where
  deactivated_list : List String
  deactivate_errors : List (String × DeactError)
  all_deactivated : Bool
deriving DecidableEq, Repr

/-- One iteration of the `for activation_index, deactivation_card_info in
activations.items()` loop: SUCCESS appends to the deactivated list; any
other result is recorded in the error map, and RETRY additionally clears
`all_deactivated` (FAILED only logs). -/
def deactStep (st : DeactPhase) (p : String × DeactResult) : DeactPhase :=
  if isSuccess p then
    { st with deactivated_list := st.deactivated_list ++ [p.1] }
  else
    let st1 :=
      { st with deactivate_errors := st.deactivate_errors ++ [(p.1, mkDeactError p.2)] }
    if isRetry p then { st1 with all_deactivated := false } else st1

/-- The whole deactivation loop, with `deactivated_list = []`,
`deactivate_errors` empty and `all_deactivated = True` initially.
The activations dict is modelled as an association list in insertion
order (Python dict iteration order). -/
def runDeactivations (acts : List (String × DeactResult)) : DeactPhase :=
  List.foldl deactStep ⟨[], [], true⟩ acts

/-- An element of the Python set returned by `hermes_unenroll_call_back`:
either the `response_state` string or the `status_code` int-or-None.
A string never equals an int or `None` in Python, so the two elements
are always distinct and the set always has exactly two members. -/
inductive SetElem where
  | state (s : String)
  | code (c : Option Nat)
deriving DecidableEq, Repr

/-- Positional destructuring `x, y = s` of a two-element Python set:
which element binds first depends on the set's iteration order, which
the language does not determine; `ord` is that order oracle. -/
def setUnpack (p : SetElem × SetElem) (ord : Bool) : SetElem × SetElem :=
  if ord then (p.1, p.2) else (p.2, p.1)

/-- The `hermes_status_data` payload sent to Hermes by
`hermes_unenroll_call_back` via `put_account_status`. -/
structure HermesStatusData where
  card_id : Nat
  response_state : String
  response_status : String
  response_message : String
  response_action : String
  deactivated_list : List String
  deactivate_errors : List (String × DeactError)
  retry_type : String
  retry_id : Option String
deriving DecidableEq, Repr

/-- `hermes_unenroll_call_back`: builds and sends the Hermes status
payload, then returns the Python SET `{response_state, status_code}`,
modelled as its two (always distinct) elements in construction order;
callers destructure it positionally through `setUnpack`. -/
def hermes_unenroll_call_back (card_id : Nat) (retry_id : Option String)
    (action_name : String) (deactivated_list : List String)
    (deactivate_errors : List (String × DeactError))
    (response_state : String) (status_code : Option Nat)
    (agent_status_code : String) (agent_message : String)
    (retry_type : String) : HermesStatusData × (SetElem × SetElem) :=
  (⟨card_id, response_state, agent_status_code, agent_message, action_name,
    deactivated_list, deactivate_errors, retry_type, truthyStr retry_id⟩,
   (.state response_state, .code status_code))

/-- Result quintuple of `agent_instance.un_enroll` (trailing ignored
component omitted). -/
structure UnenrollResult where
  response_state : String
  status_code : Option Nat
  agent_status_code : String
  agent_message : String
deriving DecidableEq, Repr

/-- The dict returned by `_remove_visa_card`:
`"response_status": response_state, "status_code": status_code`. -/
structure RemoveVisaReturn where
  response_status : SetElem
  status_code : SetElem
deriving DecidableEq, Repr

/-- Observable behaviour of one `_remove_visa_card` invocation: the
Hermes reports made, how many times `un_enroll` was invoked, and the
returned dict. -/
structure RemoveVisaOut where
  reports : List HermesStatusData
  unenroll_calls : Nat
  result : RemoveVisaReturn
deriving DecidableEq, Repr

/-- `_remove_visa_card`.  The deactivation results and the `un_enroll`
result are inputs (they come from external VOP calls); `ord` is the
set-iteration-order oracle used by the positional destructuring of the
set returned by `hermes_unenroll_call_back`.  The source guards the loop
and the interim return with `if activations:`; since an empty activation
map always leaves `all_deactivated` true, testing `all_deactivated`
alone is equivalent. -/
def remove_visa_card (card_id : Nat) (retry_id : Option String)
    (activations : List (String × DeactResult)) (unenroll : UnenrollResult)
    (action_name : String) (retry_type : String) (ord : Bool) : RemoveVisaOut :=
  let ph := runDeactivations activations
  if ph.all_deactivated = false then
    let cb := hermes_unenroll_call_back card_id retry_id action_name
      ph.deactivated_list ph.deactivate_errors VOPResult.retry.value none ""
      "Cannot unenrol some Activations still active and can be retried" retry_type
    -- `status_code, response_state = hermes_unenroll_call_back(...)`
    let u := setUnpack cb.2 ord
    ⟨[cb.1], 0, ⟨u.2, u.1⟩⟩
  else
    let cb := hermes_unenroll_call_back card_id retry_id action_name
      ph.deactivated_list ph.deactivate_errors unenroll.response_state
      unenroll.status_code unenroll.agent_status_code unenroll.agent_message
      retry_type
    -- `response_state, status_code = hermes_unenroll_call_back(...)`
    let u := setUnpack cb.2 ord
    ⟨[cb.1], 1, ⟨u.1, u.2⟩⟩

/-- Concrete RETRY deactivation result used in examples. -/
def exRetry : DeactResult :=
  ⟨VOPResult.retry.value, none, "RTMOACC01", "deactivation can be retried"⟩

/-- Concrete SUCCESS deactivation result used in examples. -/
def exSuccess : DeactResult :=
  ⟨VOPResult.success.value, some 201, "SUCCESS", "deactivated"⟩

/-- Concrete FAILED deactivation result used in examples. -/
def exFailed : DeactResult :=
  ⟨VOPResult.failed.value, some 400, "RTMOACC07", "permanent fail"⟩

/-- Concrete `un_enroll` result used in examples. -/
def exUnenroll : UnenrollResult :=
  ⟨VOPResult.success.value, some 201, "Delete:SUCCESS", "unenrolled"⟩

/-- Closed form of the deactivation loop from an arbitrary initial
state. -/
theorem foldl_deactStep (acts : List (String × DeactResult))
    (d : List String) (e : List (String × DeactError)) (b : Bool) :
    List.foldl deactStep ⟨d, e, b⟩ acts =
      ⟨d ++ (acts.filter isSuccess).map Prod.fst,
       e ++ (acts.filter (fun p => !(isSuccess p))).map (fun p => (p.1, mkDeactError p.2)),
       b && !(acts.any isRetry)⟩ := by
  induction acts generalizing d e b with
  | nil => simp
  | cons p rest ih =>
    rw [List.foldl_cons]
    by_cases hs : isSuccess p
    · have hr : isRetry p = false := by
        simp only [isSuccess, beq_iff_eq] at hs
        simp [isRetry, hs, VOPResult.value]
      rw [show deactStep ⟨d, e, b⟩ p = ⟨d ++ [p.1], e, b⟩ by simp [deactStep, hs]]
      rw [ih]
      simp [hs, hr]
    · by_cases hr : isRetry p
      · rw [show deactStep ⟨d, e, b⟩ p
            = ⟨d, e ++ [(p.1, mkDeactError p.2)], false⟩ by simp [deactStep, hs, hr]]
        rw [ih]
        simp [hs, hr]
      · rw [show deactStep ⟨d, e, b⟩ p
            = ⟨d, e ++ [(p.1, mkDeactError p.2)], b⟩ by simp [deactStep, hs, hr]]
        rw [ih]
        simp [hs, hr]

/-- The deactivation phase computes: deactivated = the SUCCESS entries,
errors = every non-SUCCESS entry, all_deactivated iff no RETRY entry. -/
theorem runDeactivations_spec (acts : List (String × DeactResult)) :
    runDeactivations acts =
      ⟨(acts.filter isSuccess).map Prod.fst,
       (acts.filter (fun p => !(isSuccess p))).map (fun p => (p.1, mkDeactError p.2)),
       !(acts.any isRetry)⟩ := by
  rw [runDeactivations, foldl_deactStep]
  simp

/-- Claim C2, counterexample: with activations A mapping to RETRY and B
mapping to SUCCESS, the unenroll step is indeed not invoked and an
interim retry outcome with deactivated list containing exactly B is
reported, but the interim report's error map is NOT empty: the RETRY
activation A is recorded in `deactivate_errors` (services.py lines
549-553 add every non-SUCCESS result to the error map). -/
theorem C2_interim_counterexample :
    (remove_visa_card 1 none [("A", exRetry), ("B", exSuccess)] exUnenroll
        "Delete" "REMOVE" true).unenroll_calls = 0
    ∧ (remove_visa_card 1 none [("A", exRetry), ("B", exSuccess)] exUnenroll
        "Delete" "REMOVE" true).reports.map HermesStatusData.response_state
      = [VOPResult.retry.value]
    ∧ (remove_visa_card 1 none [("A", exRetry), ("B", exSuccess)] exUnenroll
        "Delete" "REMOVE" true).reports.map HermesStatusData.deactivated_list
      = [["B"]]
    ∧ (remove_visa_card 1 none [("A", exRetry), ("B", exSuccess)] exUnenroll
        "Delete" "REMOVE" true).reports.map HermesStatusData.deactivate_errors
      = [[("A", mkDeactError exRetry)]]
    ∧ [[("A", mkDeactError exRetry)]]
      ≠ ([[]] : List (List (String × DeactError))) := by
  decide

/-- Claim C2, amended: for every activation set in which at least one
deactivation returns RETRY, the unenroll step is not invoked and a single
interim retry outcome is reported to the ledger, whose deactivated list
holds exactly the SUCCESS activations and whose error map holds every
non-SUCCESS activation — in particular the RETRY one, so the error map is
not empty. -/
theorem C2_interim_amended (card_id : Nat) (rid : Option String)
    (acts : List (String × DeactResult)) (u : UnenrollResult)
    (an rt : String) (ord : Bool)
    (h : acts.any isRetry = true) :
    (remove_visa_card card_id rid acts u an rt ord).unenroll_calls = 0
    ∧ (remove_visa_card card_id rid acts u an rt ord).reports
      = [⟨card_id, VOPResult.retry.value, "",
          "Cannot unenrol some Activations still active and can be retried", an,
          (acts.filter isSuccess).map Prod.fst,
          (acts.filter (fun p => !(isSuccess p))).map (fun p => (p.1, mkDeactError p.2)),
          rt, truthyStr rid⟩]
    ∧ (acts.filter (fun p => !(isSuccess p))).map (fun p => (p.1, mkDeactError p.2))
      ≠ [] := by
  have hall : (runDeactivations acts).all_deactivated = false := by
    rw [runDeactivations_spec]
    simp [h]
  refine ⟨?_, ?_, ?_⟩
  · simp [remove_visa_card, hall]
  · simp only [remove_visa_card]
    rw [if_pos hall]
    simp [hermes_unenroll_call_back, runDeactivations_spec]
  · obtain ⟨p, hp, hrp⟩ := List.any_eq_true.mp h
    have hps : isSuccess p = false := by
      simp only [isRetry, beq_iff_eq] at hrp
      simp [isSuccess, hrp, VOPResult.value]
    exact List.ne_nil_of_mem
      (List.mem_map_of_mem _ (List.mem_filter.mpr ⟨hp, by simp [hps]⟩))

/-- Witness for `C2_interim_amended` at activations A mapping to RETRY
and B mapping to SUCCESS. -/
theorem C2_interim_amended_witness :
    (remove_visa_card 1 none [("A", exRetry), ("B", exSuccess)] exUnenroll
        "Delete" "REMOVE" false).unenroll_calls = 0
    ∧ (remove_visa_card 1 none [("A", exRetry), ("B", exSuccess)] exUnenroll
        "Delete" "REMOVE" false).reports
      = [⟨1, VOPResult.retry.value, "",
          "Cannot unenrol some Activations still active and can be retried", "Delete",
          ([("A", exRetry), ("B", exSuccess)].filter isSuccess).map Prod.fst,
          ([("A", exRetry), ("B", exSuccess)].filter (fun p => !(isSuccess p))).map
            (fun p => (p.1, mkDeactError p.2)),
          "REMOVE", truthyStr none⟩]
    ∧ ([("A", exRetry), ("B", exSuccess)].filter (fun p => !(isSuccess p))).map
        (fun p => (p.1, mkDeactError p.2)) ≠ [] :=
  C2_interim_amended 1 none [("A", exRetry), ("B", exSuccess)] exUnenroll
    "Delete" "REMOVE" false (by decide)

/-- Claim C5: unenroll is attempted at most once per invocation, and
exactly once precisely when no deactivation result was RETRY; for
activations A mapping to SUCCESS and B mapping to FAILED, unenroll IS
invoked and the final report carries deactivated list A, an error map
containing B, and the unenroll result fields. -/
theorem C5_unenroll_once (card_id : Nat) (rid : Option String)
    (acts : List (String × DeactResult)) (u : UnenrollResult)
    (an rt : String) (ord : Bool) :
    (remove_visa_card card_id rid acts u an rt ord).unenroll_calls ≤ 1
    ∧ ((remove_visa_card card_id rid acts u an rt ord).unenroll_calls = 1
        ↔ acts.any isRetry = false)
    ∧ (remove_visa_card 1 none [("A", exSuccess), ("B", exFailed)] u
        "Delete" "REMOVE" ord).unenroll_calls = 1
    ∧ (remove_visa_card 1 none [("A", exSuccess), ("B", exFailed)] u
        "Delete" "REMOVE" ord).reports
      = [⟨1, u.response_state, u.agent_status_code, u.agent_message, "Delete",
          ["A"], [("B", mkDeactError exFailed)], "REMOVE", none⟩] := by
  have hall : (runDeactivations acts).all_deactivated = !(acts.any isRetry) := by
    rw [runDeactivations_spec]
  have hex : (runDeactivations [("A", exSuccess), ("B", exFailed)]).all_deactivated
      = true := by decide
  refine ⟨?_, ?_, ?_, ?_⟩
  · rcases Bool.eq_false_or_eq_true (acts.any isRetry) with h | h <;>
      simp [remove_visa_card, hall, h]
  · rcases Bool.eq_false_or_eq_true (acts.any isRetry) with h | h <;>
      simp [remove_visa_card, hall, h]
  · simp [remove_visa_card, hex]
  · simp [remove_visa_card, hex, hermes_unenroll_call_back, truthyStr]
    constructor
    · decide
    · decide

/-- Witness for `C5_unenroll_once` at the concrete example input. -/
theorem C5_unenroll_once_witness :
    (remove_visa_card 1 none [("A", exSuccess), ("B", exFailed)] exUnenroll
        "Delete" "REMOVE" true).unenroll_calls = 1
    ∧ (remove_visa_card 1 none [("A", exSuccess), ("B", exFailed)] exUnenroll
        "Delete" "REMOVE" true).reports
      = [⟨1, exUnenroll.response_state, exUnenroll.agent_status_code,
          exUnenroll.agent_message, "Delete",
          ["A"], [("B", mkDeactError exFailed)], "REMOVE", none⟩] :=
  ⟨(C5_unenroll_once 1 none [("A", exSuccess), ("B", exFailed)] exUnenroll
      "Delete" "REMOVE" true).2.2.1,
   (C5_unenroll_once 1 none [("A", exSuccess), ("B", exFailed)] exUnenroll
      "Delete" "REMOVE" true).2.2.2⟩

/-- Claim C10: `hermes_unenroll_call_back` returns the unordered set of
`response_state` and `status_code`, and `_remove_visa_card` destructures
it positionally (swapped between the interim and final branches), so two
runs on identical inputs that differ only in set-iteration order make
identical ledger reports yet return the two field values swapped: the
returned dict is not determined by the inputs.  Shown on the interim
branch (activations A mapping to RETRY) and on the final branch (no
activations). -/
theorem C10_set_order_nondeterminism :
    ((remove_visa_card 1 none [("A", exRetry)] exUnenroll "Delete" "REMOVE" true).reports
      = (remove_visa_card 1 none [("A", exRetry)] exUnenroll "Delete" "REMOVE" false).reports)
    ∧ (remove_visa_card 1 none [("A", exRetry)] exUnenroll "Delete" "REMOVE" true).result
      ≠ (remove_visa_card 1 none [("A", exRetry)] exUnenroll "Delete" "REMOVE" false).result
    ∧ (remove_visa_card 1 none [("A", exRetry)] exUnenroll "Delete" "REMOVE" true).result.response_status
      = (remove_visa_card 1 none [("A", exRetry)] exUnenroll "Delete" "REMOVE" false).result.status_code
    ∧ (remove_visa_card 1 none [("A", exRetry)] exUnenroll "Delete" "REMOVE" true).result.status_code
      = (remove_visa_card 1 none [("A", exRetry)] exUnenroll "Delete" "REMOVE" false).result.response_status
    ∧ ((remove_visa_card 2 none [] exUnenroll "Delete" "REMOVE" true).reports
      = (remove_visa_card 2 none [] exUnenroll "Delete" "REMOVE" false).reports)
    ∧ (remove_visa_card 2 none [] exUnenroll "Delete" "REMOVE" true).result
      ≠ (remove_visa_card 2 none [] exUnenroll "Delete" "REMOVE" false).result := by
  decide

/-!
Embedding of the response-handling halves of `add_card`,
`reactivate_card`, the non-Visa branch of `remove_card`, and of
`redact_card`.  The agent `response_handler` either returns a parsed
canonical dict or raises `AttributeError` on a malformed or absent
response, so it is modelled as an `Option ParsedResp` input.
-/

/-- The canonical parsed-response dict produced by an agent
`response_handler`: fields are optional exactly as in the dict. -/
structure ParsedResp where
  status_code : Nat
  response_state : Option String
  agent_card_uid : Option String
  agent_status_code : Option String
  message : Option String
  bink_status : Option Nat
deriving DecidableEq, Repr

/-- Python truthiness of an optional int fetched with `dict.get`:
a missing key and 0 are both falsy. -/
def truthyNat : Option Nat → Option Nat
  | some n => if n = 0 then none else some n
  | none => none

/-- The `hermes_data` payload assembled by `get_hermes_data` and
`add_card` before `put_account_status`. -/
structure HermesAddData where
  card_id : Nat
  response_action : String
  response_state : Option String
  agent_card_uid : Option String
  response_status_code : Option Nat
  response_status : Option String
  response_message : Option String
  retry_id : Option String
deriving DecidableEq, Repr

/-- `get_hermes_data`: every optional field is included only when its
source value is truthy. -/
def get_hermes_data (resp : ParsedResp) (card_id : Nat) : HermesAddData :=
  { card_id := card_id
    response_action := "Add"
    response_state := truthyStr resp.response_state
    agent_card_uid := truthyStr resp.agent_card_uid
    response_status_code := truthyNat (some resp.status_code)
    response_status := truthyStr resp.agent_status_code
    response_message := truthyStr resp.message
    retry_id := none }

/-- The fixed sentinel dict substituted when `response_handler` raises
`AttributeError` in `add_card`:
`resp = ... status_code 504, message "Bad or no response from Spreedly"`. -/
def spreedly_parse_fail_sentinel : ParsedResp :=
  ⟨504, none, none, none, some "Bad or no response from Spreedly", none⟩

/-- Observable outcome of the reporting half of `add_card`: the card
status code passed to `put_account_status`, the `hermes_data` payload,
and the dict the function returns. -/
structure AddCardOut where
  card_status_code : Nat
  hermes_data : HermesAddData
  resp : ParsedResp
deriving DecidableEq, Repr

/-- Reporting half of `add_card`, from the parse result (`none` when
`response_handler` raised `AttributeError`), the raw proxy status code
`req_resp.status_code`, and the card info fields it reads. -/
def add_card (parsed : Option ParsedResp) (raw_status : Nat)
    (retry_id : Option String) (card_id : Nat) : AddCardOut :=
  let resp := parsed.getD spreedly_parse_fail_sentinel
  let card_status_code :=
    if resp.status_code = 200 then 1 else resp.bink_status.getD 0
  let hd := get_hermes_data resp card_id
  -- Ensure that Spreedly 422/408 responses get retried WAL-2992/WAL-3118
  let hd :=
    if raw_status = 422 ∨ raw_status = 408 then
      { hd with response_state := some "Retry" }
    else hd
  let hd :=
    match truthyStr retry_id with
    | some rid => { hd with retry_id := some rid }
    | none => hd
  ⟨card_status_code, hd, resp⟩

/-- Python exceptions that escape the lifecycle functions. -/
inductive PyExc where
  | attributeError
  | keyError
deriving DecidableEq, Repr

/-- Response-handling half of `reactivate_card`: the `response_handler`
call has NO try/except, so a parse failure propagates; on success the
reported card status is 1 for a 200, else `resp["bink_status"]` (a plain
subscript, so a missing key raises `KeyError`). -/
def reactivate_card (parsed : Option ParsedResp) : Except PyExc (Nat × ParsedResp) :=
  match parsed with
  | none => .error .attributeError
  | some resp =>
    if resp.status_code = 200 then .ok (1, resp)
    else
      match resp.bink_status with
      | some b => .ok (b, resp)
      | none => .error .keyError

/-- Response-handling half of the non-Visa branch of `remove_card`: the
`response_handler` call has no try/except either, so a parse failure
propagates; otherwise the parsed dict is returned. -/
def remove_card_non_visa (parsed : Option ParsedResp) : Except PyExc ParsedResp :=
  match parsed with
  | none => .error .attributeError
  | some resp => .ok resp

/-- Claim C7: a parsed response with status 200 makes `add_card` report
card status code 1 (the success sentinel), and a raw proxy status of 422
or 408 forces `response_state = "Retry"` in the Hermes payload no matter
what the parsed dict contains. -/
theorem C7_add_report :
    (∀ (r : ParsedResp) (raw : Nat) (rid : Option String) (cid : Nat),
      r.status_code = 200 → (add_card (some r) raw rid cid).card_status_code = 1)
    ∧ (∀ (po : Option ParsedResp) (raw : Nat) (rid : Option String) (cid : Nat),
      raw = 422 ∨ raw = 408 →
        (add_card po raw rid cid).hermes_data.response_state = some "Retry") := by
  constructor
  · intro r raw rid cid h
    simp [add_card, h]
  · intro po raw rid cid h
    rcases h with rfl | rfl <;> rcases po with _ | r <;>
      cases htr : truthyStr rid <;>
        simp [add_card, get_hermes_data, htr]

/-- Concrete parsed 200 response used in witnesses. -/
def exParsed200 : ParsedResp :=
  ⟨200, some "Success", none, some "BINK_OK", some "ok", some 1⟩

/-- Witness for `C7_add_report`: a parsed 200 behind a raw 422. -/
theorem C7_add_report_witness :
    (add_card (some exParsed200) 422 none 7).card_status_code = 1
    ∧ (add_card (some exParsed200) 422 none 7).hermes_data.response_state
      = some "Retry" :=
  ⟨C7_add_report.1 exParsed200 422 none 7 rfl,
   C7_add_report.2 (some exParsed200) 422 none 7 (Or.inl rfl)⟩

/-- Claim C9, counterexample: when response parsing fails,
`reactivate_card` and the non-Visa `remove_card` propagate the
`AttributeError` instead of producing the 504 sentinel CanonicalResult;
only `add_card` degrades gracefully. -/
theorem C9_parse_fail_counterexample :
    reactivate_card none = Except.error PyExc.attributeError
    ∧ remove_card_non_visa none = Except.error PyExc.attributeError
    ∧ (add_card none 500 none 1).resp = spreedly_parse_fail_sentinel :=
  ⟨rfl, rfl, rfl⟩

/-- Claim C9, amended: only the add flow degrades a parse failure to the
fixed CanonicalResult with status 504 and message "Bad or no response
from Spreedly"; the reactivate flow and the non-Visa remove flow let the
parse error propagate to the caller. -/
theorem C9_parse_fail_amended (raw : Nat) (rid : Option String) (cid : Nat) :
    (add_card none raw rid cid).resp.status_code = 504
    ∧ (add_card none raw rid cid).resp.message
      = some "Bad or no response from Spreedly"
    ∧ reactivate_card none = Except.error PyExc.attributeError
    ∧ remove_card_non_visa none = Except.error PyExc.attributeError :=
  ⟨rfl, rfl, rfl, rfl⟩

/-!
Embedding of `redact_card`.  The JSON body is modelled structurally;
each subscript `resp_json[...]` on a missing key raises `KeyError`, and
the boolean condition short-circuits exactly as the Python `and`/`or`
chain does.
-/

/-- The `payment_method` sub-object of the redact response body. -/
structure PaymentMethodJson where
  storage_state : Option String
deriving DecidableEq, Repr

/-- The `transaction` sub-object of the redact response body. -/
structure TransactionJson where
  succeeded : Option Bool
  payment_method : Option PaymentMethodJson
deriving DecidableEq, Repr

/-- The redact response body as far as `redact_card` inspects it;
`none` fields are missing keys. -/
structure RedactJson where
  transaction : Option TransactionJson
deriving DecidableEq, Repr

/-- What `redact_resp.json()` yields: a raising call (non-JSON body), a
falsy value (for example an empty object), or a truthy object. -/
inductive RedactBody where
  | invalid
  | falsy
  | obj (j : RedactJson)
deriving DecidableEq, Repr

/-- Input to `redact_card`: either the `send_request` call raised
`RequestException`, or it returned a response with a status code and a
body. -/
inductive RedactInput where
  | requestException
  | response (status : Nat) (body : RedactBody)
deriving DecidableEq, Repr

/-- Observable outcome of `redact_card`: silent success, a retry report
to Hermes via `put_account_status` (card status, response state, retry
type), or an exception escaping the function. -/
inductive RedactOutcome where
  | success
  | retryReport (card_status : Nat) (response_state : String) (retry_type : String)
  | uncaught
deriving DecidableEq, Repr

/-- Modelled from the spec: the `.value` string of `RetryTypes.REDACT`
(the `metis.enums.RetryTypes` enum is not part of this repository); the
claims depend only on it being a fixed token. -/
def redactRetryType : String := "REDACT"

/-- `redact_card`.  A `RequestException` from the dispatch reports card
status 5; a 404 is success; a 2xx whose body is truthy with
`transaction.succeeded` true or `transaction.payment_method.storage_state`
equal to "redacted" is success; any other completed comparison reports
card status 6; a missing key along the way raises `KeyError` (uncaught),
and a non-JSON 2xx body raises from `.json()` (uncaught). -/
def redact_card (input : RedactInput) : RedactOutcome :=
  match input with
  | .requestException => .retryReport 5 VOPResult.retry.value redactRetryType
  | .response status body =>
    if status = 404 then .success
    else if 200 ≤ status ∧ status < 300 then
      match body with
      | .invalid => .uncaught
      | .falsy => .retryReport 6 VOPResult.retry.value redactRetryType
      | .obj j =>
        match j.transaction with
        | none => .uncaught
        | some t =>
          match t.succeeded with
          | none => .uncaught
          | some true => .success
          | some false =>
            match t.payment_method with
            | none => .uncaught
            | some pm =>
              match pm.storage_state with
              | none => .uncaught
              | some ss =>
                if ss = "redacted" then .success
                else .retryReport 6 VOPResult.retry.value redactRetryType
    else .retryReport 6 VOPResult.retry.value redactRetryType

/-- Claim C8, counterexample: a 200 response whose `transaction` object
is present but whose `succeeded` key is absent makes `redact_card` raise
an uncaught `KeyError` instead of reporting a retry to the ledger; the
claim's "success fields false or absent ⇒ retry reported" is false for
the absent case. -/
theorem C8_redact_counterexample :
    redact_card (.response 200 (.obj ⟨some ⟨none, none⟩⟩)) = RedactOutcome.uncaught
    ∧ RedactOutcome.uncaught
      ≠ RedactOutcome.retryReport 6 VOPResult.retry.value redactRetryType := by
  decide

/-- Claim C8, amended: a 404 is success regardless of body; a 2xx with
`transaction.succeeded` true, or with `succeeded` false but
`storage_state` equal to "redacted", is success; a non-2xx non-404
response, a falsy 2xx body, or a 2xx body with the success fields
present and falsy, reports a retry with the fixed outcome code 6 and the
fixed retry classification; but a 2xx body with `transaction` or
`succeeded` absent raises an uncaught lookup error instead of reporting;
a transport-layer `RequestException` reports with outcome code 5. -/
theorem C8_redact_amended :
    (∀ body, redact_card (.response 404 body) = .success)
    ∧ (∀ (s : Nat) (j : RedactJson) (t : TransactionJson),
        200 ≤ s → s < 300 → j.transaction = some t → t.succeeded = some true →
        redact_card (.response s (.obj j)) = .success)
    ∧ (∀ (s : Nat) (j : RedactJson) (t : TransactionJson) (pm : PaymentMethodJson),
        200 ≤ s → s < 300 → j.transaction = some t → t.succeeded = some false →
        t.payment_method = some pm → pm.storage_state = some "redacted" →
        redact_card (.response s (.obj j)) = .success)
    ∧ (∀ (s : Nat) (body : RedactBody), s ≠ 404 → ¬(200 ≤ s ∧ s < 300) →
        redact_card (.response s body)
          = .retryReport 6 VOPResult.retry.value redactRetryType)
    ∧ (∀ (s : Nat), 200 ≤ s → s < 300 →
        redact_card (.response s .falsy)
          = .retryReport 6 VOPResult.retry.value redactRetryType)
    ∧ (∀ (s : Nat) (j : RedactJson) (t : TransactionJson) (pm : PaymentMethodJson)
        (ss : String),
        200 ≤ s → s < 300 → j.transaction = some t → t.succeeded = some false →
        t.payment_method = some pm → pm.storage_state = some ss → ss ≠ "redacted" →
        redact_card (.response s (.obj j))
          = .retryReport 6 VOPResult.retry.value redactRetryType)
    ∧ (∀ (s : Nat) (j : RedactJson), 200 ≤ s → s < 300 → j.transaction = none →
        redact_card (.response s (.obj j)) = .uncaught)
    ∧ (∀ (s : Nat) (j : RedactJson) (t : TransactionJson),
        200 ≤ s → s < 300 → j.transaction = some t → t.succeeded = none →
        redact_card (.response s (.obj j)) = .uncaught)
    ∧ redact_card .requestException
      = .retryReport 5 VOPResult.retry.value redactRetryType := by
  refine ⟨?_, ?_, ?_, ?_, ?_, ?_, ?_, ?_, rfl⟩
  · intro body
    simp [redact_card]
  · intro s j t h1 h2 ht hs
    have h404 : ¬ s = 404 := by omega
    simp [redact_card, h404, h1, h2, ht, hs]
  · intro s j t pm h1 h2 ht hs hpm hss
    have h404 : ¬ s = 404 := by omega
    simp [redact_card, h404, h1, h2, ht, hs, hpm, hss]
  · intro s body h404 hn
    simp [redact_card, h404, hn]
  · intro s h1 h2
    have h404 : ¬ s = 404 := by omega
    simp [redact_card, h404, h1, h2]
  · intro s j t pm ss h1 h2 ht hs hpm hss hne
    have h404 : ¬ s = 404 := by omega
    simp [redact_card, h404, h1, h2, ht, hs, hpm, hss, hne]
  · intro s j h1 h2 ht
    have h404 : ¬ s = 404 := by omega
    simp [redact_card, h404, h1, h2, ht]
  · intro s j t h1 h2 ht hs
    have h404 : ¬ s = 404 := by omega
    simp [redact_card, h404, h1, h2, ht, hs]

/-- Witness for `C8_redact_amended` at concrete inputs covering the 404,
success, terminal-retry and falsy-field branches. -/
theorem C8_redact_amended_witness :
    redact_card (.response 404 .falsy) = .success
    ∧ redact_card (.response 201 (.obj ⟨some ⟨some true, none⟩⟩)) = .success
    ∧ redact_card (.response 500 .invalid)
      = .retryReport 6 VOPResult.retry.value redactRetryType
    ∧ redact_card (.response 200 (.obj ⟨some ⟨some false, some ⟨some "cached"⟩⟩⟩))
      = .retryReport 6 VOPResult.retry.value redactRetryType :=
  ⟨C8_redact_amended.1 .falsy,
   C8_redact_amended.2.1 201 ⟨some ⟨some true, none⟩⟩ ⟨some true, none⟩
     (by norm_num) (by norm_num) rfl rfl,
   C8_redact_amended.2.2.2.1 500 .invalid (by norm_num) (by omega),
   C8_redact_amended.2.2.2.2.2.1 200 ⟨some ⟨some false, some ⟨some "cached"⟩⟩⟩
     ⟨some false, some ⟨some "cached"⟩⟩ ⟨some "cached"⟩ "cached"
     (by norm_num) (by norm_num) rfl rfl rfl rfl (by decide)⟩

end GitopsArchive
